import Mathlib

/-!
Shallow embedding of the Shelf-Life Advisor of `src/api/src/main.py`
(`EXPIRATION_RULES` and `suggest_expiration_date`), together with theorems
settling the specification claims about it.

Modelling conventions:
* A Python `str` is a list of Unicode code points, `List Nat`; `pyStr`
  converts a Lean string literal to this form for readability.
* `str.lower()` is `pyLower` (`Char.lower` only affects code points 65..90,
  which is exact for the ASCII keywords and storage names of this module).
* Python substring containment `a in b` is `subIn` (contiguous sublist).
* Python `date` values are their proleptic-Gregorian ordinals (`Nat`,
  `date.toordinal`); `date + timedelta(days=n)` is ordinal addition in
  `suggest_expiration_date`, while `pyDateAdd` and
  `suggest_expiration_date_checked` keep its fallible side: the
  `OverflowError` raised when the sum passes `_MAXORDINAL` (`date.max`,
  9999-12-31) is `none`. `PyDate.toOrdinal` mirrors
  `datetime.date.toordinal` for concrete dates.
* The dict `EXPIRATION_RULES` is an association list in insertion order
  (Python dicts iterate in insertion order).
-/

/-- A Python string as its list of Unicode code points. -/
def pyStr (s : String) : List Nat := s.toList.map Char.toNat

/-- Python substring containment `needle in haystack`: `needle` occurs as a
contiguous substring of `haystack`. -/
def subIn (needle haystack : List Nat) : Bool := decide (needle <:+: haystack)

/-- `str.lower()` on one code point: ASCII uppercase letters map down by 32. -/
def lowerChar (c : Nat) : Nat := if 65 ≤ c ∧ c ≤ 90 then c + 32 else c

/-- `item_name.lower()`. -/
def pyLower (s : List Nat) : List Nat := s.map lowerChar

/-- One value of the `EXPIRATION_RULES` dict: a keyword list and the
optional day-count for each storage location (`none` = Python `None`). -/
structure Rule where
  keywords : List (List Nat)
  pantry : Option Nat
  fridge : Option Nat
  freezer : Option Nat
deriving DecidableEq, Repr

/-- `EXPIRATION_RULES` from `src/api/src/main.py`, in source (insertion) order. -/
def EXPIRATION_RULES : List (String × Rule) :=
  [ ("dairy",
     { keywords := [pyStr "milk", pyStr "cream", pyStr "yogurt", pyStr "cheese",
                    pyStr "butter", pyStr "sour cream", pyStr "cottage cheese"],
       pantry := none, fridge := some 7, freezer := some 90 }),
    ("meat",
     { keywords := [pyStr "chicken", pyStr "beef", pyStr "pork", pyStr "turkey",
                    pyStr "lamb", pyStr "steak", pyStr "ground", pyStr "sausage",
                    pyStr "bacon", pyStr "ham"],
       pantry := none, fridge := some 3, freezer := some 180 }),
    ("seafood",
     { keywords := [pyStr "fish", pyStr "salmon", pyStr "tuna", pyStr "shrimp",
                    pyStr "crab", pyStr "lobster", pyStr "seafood"],
       pantry := none, fridge := some 2, freezer := some 90 }),
    ("produce_perishable",
     { keywords := [pyStr "lettuce", pyStr "spinach", pyStr "kale", pyStr "broccoli",
                    pyStr "carrots", pyStr "celery", pyStr "bell pepper", pyStr "cucumber",
                    pyStr "tomato", pyStr "berries", pyStr "grapes"],
       pantry := none, fridge := some 7, freezer := some 30 }),
    ("produce_long",
     { keywords := [pyStr "potato", pyStr "onion", pyStr "garlic", pyStr "apple",
                    pyStr "orange", pyStr "banana"],
       pantry := some 30, fridge := some 14, freezer := some 90 }),
    ("bread",
     { keywords := [pyStr "bread", pyStr "bagel", pyStr "muffin", pyStr "roll",
                    pyStr "bun", pyStr "croissant"],
       pantry := some 5, fridge := some 7, freezer := some 90 }),
    ("eggs",
     { keywords := [pyStr "egg", pyStr "eggs"],
       pantry := none, fridge := some 21, freezer := none }),
    ("canned",
     { keywords := [pyStr "can", pyStr "canned", pyStr "soup", pyStr "beans",
                    pyStr "corn", pyStr "peas", pyStr "tuna can"],
       pantry := some 365, fridge := some 365, freezer := none }),
    ("dry",
     { keywords := [pyStr "pasta", pyStr "rice", pyStr "flour", pyStr "sugar",
                    pyStr "cereal", pyStr "oats", pyStr "quinoa", pyStr "lentils",
                    pyStr "beans dry"],
       pantry := some 365, fridge := some 365, freezer := some 365 }),
    ("packaged",
     { keywords := [pyStr "chips", pyStr "crackers", pyStr "cookies", pyStr "nuts",
                    pyStr "pretzels", pyStr "popcorn"],
       pantry := some 90, fridge := some 90, freezer := some 180 }),
    ("beverages",
     { keywords := [pyStr "juice", pyStr "soda", pyStr "water", pyStr "coffee",
                    pyStr "tea"],
       pantry := some 180, fridge := some 7, freezer := none }) ]

/-- The `if storage_type == ... and rules[...] is not None` chain of the
keyword-match branch: it either sets `matched_days` from the rule's entry
for the storage type, or leaves the incoming value `md` unchanged. -/
def matchedDaysUpdate (storage : List Nat) (r : Rule) (md : Option Nat) : Option Nat :=
  if storage = pyStr "freezer" ∧ r.freezer.isSome then r.freezer
  else if storage = pyStr "fridge" ∧ r.fridge.isSome then r.fridge
  else if storage = pyStr "pantry" ∧ r.pantry.isSome then r.pantry
  else md

/-- The inner `for keyword in rules["keywords"]` loop, carrying
`(matched_category, matched_days)` and breaking once `matched_days` is set. -/
def scanKeywords (nameL storage : List Nat) (cat : String) (r : Rule) :
    List (List Nat) → Option String × Option Nat → Option String × Option Nat
  | [], st => st
  | kw :: rest, (mc, md) =>
    if subIn kw nameL then
      let mc2 : Option String := some cat
      let md2 := matchedDaysUpdate storage r md
      if md2.isSome then (mc2, md2) else scanKeywords nameL storage cat r rest (mc2, md2)
    else scanKeywords nameL storage cat r rest (mc, md)

/-- The outer `for category, rules in EXPIRATION_RULES.items()` loop,
breaking once `matched_days` is set. -/
def scanRules (nameL storage : List Nat) :
    List (String × Rule) → Option String × Option Nat → Option String × Option Nat
  | [], st => st
  | (cat, r) :: rest, st =>
    let st2 := scanKeywords nameL storage cat r r.keywords st
    if st2.2.isSome then st2 else scanRules nameL storage rest st2

/-- `suggest_expiration_date(item_name, storage_type, purchased_date)`.
The caller-side current date (`date.today()`) is passed explicitly as
`today`; dates are proleptic-Gregorian ordinals. Returns
`(suggested_date, confidence, category)`. -/
def suggest_expiration_date (item_name storage_type : List Nat)
    (purchased_date : Option Nat) (today : Nat) :
    Option Nat × String × Option String :=
  let item_name_lower := pyLower item_name
  let anchor := match purchased_date with
    | some d => d
    | none => today
  let st := scanRules item_name_lower storage_type EXPIRATION_RULES (none, none)
  match st.2 with
  | some d => (some (anchor + d), "high", st.1)
  | none => (some (anchor + 7), "low", none)

/-- A rule is a keyword candidate for a (lowercased) name when some keyword
occurs as a substring of it. -/
def keywordHit (nameL : List Nat) (r : Rule) : Bool :=
  r.keywords.any (fun kw => subIn kw nameL)

/-- A rule wins the scan when a keyword matches and its entry for the
storage type is present. -/
def ruleHit (nameL storage : List Nat) (cr : String × Rule) : Bool :=
  keywordHit nameL cr.2 && (matchedDaysUpdate storage cr.2 none).isSome

/-- The first rule of the table, in its fixed order, that wins the scan. -/
def firstHit (nameL storage : List Nat) : Option (String × Rule) :=
  EXPIRATION_RULES.find? (ruleHit nameL storage)

/-- Mirror of `datetime.date`: a calendar date in the proleptic Gregorian
calendar, as `(year, month, day)`. -/
structure PyDate where
  year : Nat
  month : Nat
  day : Nat
deriving DecidableEq, Repr

/-- Gregorian leap-year test, as in Python's `calendar.isleap`. -/
def isLeap (y : Nat) : Bool := y % 4 == 0 && (y % 100 != 0 || y % 400 == 0)

/-- Month lengths of a non-leap year. -/
def monthDays : List Nat := [31, 28, 31, 30, 31, 30, 31, 31, 30, 31, 30, 31]

/-- Days in the year before the first of month `m` (mirror of
`datetime._days_before_month`). -/
def daysBeforeMonth (y m : Nat) : Nat :=
  (monthDays.take (m - 1)).sum + (if 2 < m ∧ isLeap y then 1 else 0)

/-- Mirror of `datetime.date.toordinal`: day number in the proleptic Gregorian
calendar, with 0001-01-01 having ordinal 1. -/
def PyDate.toOrdinal (dt : PyDate) : Nat :=
  (dt.year - 1) * 365 + (dt.year - 1) / 4 - (dt.year - 1) / 100 + (dt.year - 1) / 400
    + daysBeforeMonth dt.year dt.month + dt.day

/-- The advisor's observable process state: the module-level rule table it
reads. `suggest_expiration_date` assigns only local variables, so a call
leaves this state unchanged and computes the result from it. -/
structure AdvisorState where
  rules : List (String × Rule)
deriving DecidableEq

/-- The outer-loop scan over an arbitrary table (as stored in the state). -/
def suggestOver (rules : List (String × Rule)) (item_name storage_type : List Nat)
    (purchased_date : Option Nat) (today : Nat) :
    Option Nat × String × Option String :=
  let item_name_lower := pyLower item_name
  let anchor := match purchased_date with
    | some d => d
    | none => today
  let st := scanRules item_name_lower storage_type rules (none, none)
  match st.2 with
  | some d => (some (anchor + d), "high", st.1)
  | none => (some (anchor + 7), "low", none)

/-- One call of the advisor as a state transition: it reads the table and
performs no mutation (the Python function body contains no assignment to
`EXPIRATION_RULES` or any other non-local name). -/
def suggestCall (s : AdvisorState) (item_name storage_type : List Nat)
    (purchased_date : Option Nat) (today : Nat) :
    AdvisorState × (Option Nat × String × Option String) :=
  (s, suggestOver s.rules item_name storage_type purchased_date today)

/-- A day-count entry of the table is either absent or between 2 and 365. -/
def dayOk (o : Option Nat) : Bool :=
  match o with
  | none => true
  | some v => 2 ≤ v && v ≤ 365

/-- CPython's `datetime._MAXORDINAL`: the ordinal of `date.max`, 9999-12-31. -/
def MAXORDINAL : Nat := 3652059

/-- Mirror of `date.__add__(timedelta)`: the ordinal sum when it stays within
`0 < o <= _MAXORDINAL`, and `none` for the `OverflowError` raised otherwise. -/
def pyDateAdd (o days : Nat) : Option Nat :=
  if 0 < o + days ∧ o + days ≤ MAXORDINAL then some (o + days) else none

/-- `suggest_expiration_date` with the fallible date addition made explicit:
`none` is the `OverflowError` that `today + timedelta(days=...)` raises when
the resulting date would pass `date.max`; otherwise the returned triple. -/
def suggest_expiration_date_checked (item_name storage_type : List Nat)
    (purchased_date : Option Nat) (today : Nat) :
    Option (Option Nat × String × Option String) :=
  let item_name_lower := pyLower item_name
  let anchor := match purchased_date with
    | some d => d
    | none => today
  let st := scanRules item_name_lower storage_type EXPIRATION_RULES (none, none)
  match st.2 with
  | some d => (pyDateAdd anchor d).map (fun o => (some o, "high", st.1))
  | none => (pyDateAdd anchor 7).map (fun o => (some o, "low", none))

/-- The inner keyword loop, entered with `matched_days = None`, returns the
category together with the storage entry as soon as any keyword matches,
and leaves the state untouched otherwise. -/
theorem scanKeywords_characterization (nameL storage : List Nat) (cat : String) (r : Rule)
    (kws : List (List Nat)) (mc : Option String) :
    scanKeywords nameL storage cat r kws (mc, none) =
      if kws.any (fun kw => subIn kw nameL) then
        (some cat, matchedDaysUpdate storage r none)
      else (mc, none) := by
  induction kws generalizing mc with
  | nil => simp [scanKeywords]
  | cons kw rest ih =>
    by_cases h : subIn kw nameL
    · simp only [scanKeywords, h, if_true, List.any_cons, Bool.true_or]
      cases hd : matchedDaysUpdate storage r none with
      | some d => simp [hd]
      | none => simp [hd, ih]
    · simp only [scanKeywords, h, if_false, List.any_cons]
      rw [ih]
      simp [h]

/-- The outer rule loop, when some rule wins (keyword match with a present
storage entry), returns that first winning rule's category and entry. -/
theorem scanRules_found (nameL storage : List Nat) (rules : List (String × Rule))
    (mc : Option String) (c : String) (r : Rule)
    (h : rules.find? (ruleHit nameL storage) = some (c, r)) :
    scanRules nameL storage rules (mc, none) = (some c, matchedDaysUpdate storage r none) := by
  induction rules generalizing mc with
  | nil => simp at h
  | cons cr rest ih =>
    obtain ⟨c0, r0⟩ := cr
    by_cases hk : keywordHit nameL r0
    · cases hd : matchedDaysUpdate storage r0 none with
      | some d =>
        have hr : ruleHit nameL storage (c0, r0) = true := by
          simp [ruleHit, hk, hd]
        rw [List.find?_cons_of_pos _ hr] at h
        obtain ⟨rfl, rfl⟩ := Prod.mk.inj (Option.some.inj h)
        simp only [scanRules]
        rw [scanKeywords_characterization]
        simp [keywordHit] at hk
        simp [hk, hd]
      | none =>
        have hr : ruleHit nameL storage (c0, r0) = false := by
          simp [ruleHit, hd]
        rw [List.find?_cons_of_neg _ (by simp [hr])] at h
        simp only [scanRules]
        rw [scanKeywords_characterization]
        have hk2 : (r0.keywords.any (fun kw => subIn kw nameL)) = true := by
          simpa [keywordHit] using hk
        simp only [hk2, if_true, hd, Option.isSome_none, Bool.false_eq_true, if_false]
        exact ih (some c0) h
    · have hr : ruleHit nameL storage (c0, r0) = false := by
        simp [ruleHit]
        intro hcontra
        exact absurd hcontra (by simpa [keywordHit] using hk)
      rw [List.find?_cons_of_neg _ (by simp [hr])] at h
      simp only [scanRules]
      rw [scanKeywords_characterization]
      have hk2 : (r0.keywords.any (fun kw => subIn kw nameL)) = false := by
        simpa [keywordHit] using hk
      simp only [hk2, Bool.false_eq_true, if_false, Option.isSome_none]
      exact ih mc h

/-- The outer rule loop, when no rule wins, ends with `matched_days = None`. -/
theorem scanRules_notfound (nameL storage : List Nat) (rules : List (String × Rule))
    (mc : Option String)
    (h : rules.find? (ruleHit nameL storage) = none) :
    (scanRules nameL storage rules (mc, none)).2 = none := by
  induction rules generalizing mc with
  | nil => simp [scanRules]
  | cons cr rest ih =>
    obtain ⟨c0, r0⟩ := cr
    rw [List.find?_eq_none] at h
    have hr : ruleHit nameL storage (c0, r0) = false := by
      have := h (c0, r0) (List.mem_cons_self _ _)
      simpa using this
    have hrest : rest.find? (ruleHit nameL storage) = none := by
      rw [List.find?_eq_none]
      intro x hx
      exact h x (List.mem_cons_of_mem _ hx)
    simp only [scanRules]
    rw [scanKeywords_characterization]
    by_cases hk : (r0.keywords.any (fun kw => subIn kw nameL)) = true
    · have hd : matchedDaysUpdate storage r0 none = none := by
        have : ¬ (keywordHit nameL r0 && (matchedDaysUpdate storage r0 none).isSome) = true := by
          simpa [ruleHit] using hr
        simp [keywordHit, hk] at this
        simpa using this
      simp only [hk, if_true, hd, Option.isSome_none, Bool.false_eq_true, if_false]
      exact ih (some c0) hrest
    · simp only [Bool.not_eq_true] at hk
      simp only [hk, Bool.false_eq_true, if_false, Option.isSome_none]
      exact ih mc hrest

/-- When some rule wins the scan, `suggest_expiration_date` returns the anchor
date plus that rule's storage entry, confidence high, and that rule's category. -/
theorem suggest_found (name storage : List Nat) (p t : Nat) (c : String) (r : Rule)
    (h : firstHit (pyLower name) storage = some (c, r)) :
    ∃ d, matchedDaysUpdate storage r none = some d ∧
      suggest_expiration_date name storage (some p) t = (some (p + d), "high", some c) := by
  have hp : ruleHit (pyLower name) storage (c, r) = true := List.find?_some h
  have hsome : (matchedDaysUpdate storage r none).isSome = true := by
    simp [ruleHit] at hp
    exact hp.2
  obtain ⟨d, hd⟩ := Option.isSome_iff_exists.mp hsome
  refine ⟨d, hd, ?_⟩
  simp only [suggest_expiration_date]
  rw [scanRules_found (pyLower name) storage EXPIRATION_RULES none c r h, hd]

/-- When no rule wins the scan, `suggest_expiration_date` returns the anchor
date plus 7, confidence low, and no category. -/
theorem suggest_fallback (name storage : List Nat) (p t : Nat)
    (h : firstHit (pyLower name) storage = none) :
    suggest_expiration_date name storage (some p) t = (some (p + 7), "low", none) := by
  have h2 := scanRules_notfound (pyLower name) storage EXPIRATION_RULES none h
  simp only [suggest_expiration_date]
  rw [h2]

/-- An unspecified `purchased_date` anchors the result at the current date. -/
theorem suggest_none_anchor (name storage : List Nat) (t : Nat) :
    suggest_expiration_date name storage none t =
      suggest_expiration_date name storage (some t) t := rfl

/-- The pure function is the stateful call at the module-level table. -/
theorem suggest_eq_call (name storage : List Nat) (pd : Option Nat) (t : Nat) :
    suggest_expiration_date name storage pd t =
      (suggestCall ⟨EXPIRATION_RULES⟩ name storage pd t).2 := rfl

/-- For a storage string other than the three recognized ones, every branch
of the `if/elif` chain fails and `matched_days` keeps its incoming value. -/
theorem matchedDaysUpdate_invalid (storage : List Nat) (r : Rule)
    (h1 : storage ≠ pyStr "pantry") (h2 : storage ≠ pyStr "fridge")
    (h3 : storage ≠ pyStr "freezer") :
    matchedDaysUpdate storage r none = none := by
  simp [matchedDaysUpdate, h1, h2, h3]

/-- `str.lower()` is idempotent on a code point. -/
theorem lowerChar_idem (c : Nat) : lowerChar (lowerChar c) = lowerChar c := by
  simp only [lowerChar]
  split_ifs <;> omega

/-- `str.lower()` is idempotent on a string. -/
theorem pyLower_idem (s : List Nat) : pyLower (pyLower s) = pyLower s := by
  simp only [pyLower, List.map_map]
  exact List.map_congr_left fun c _ => lowerChar_idem c

/-- C1: the claim states that an unrecognized storage type behaves exactly
like `"pantry"`. It does not: for item `"bread"` the pantry entry (5 days,
high confidence) differs from what an unrecognized storage type produces. -/
theorem C1_counterexample :
    suggest_expiration_date (pyStr "bread") (pyStr "attic") (some 0) 0 ≠
      suggest_expiration_date (pyStr "bread") (pyStr "pantry") (some 0) 0 := by
  decide

/-- C1 (amended): with a storage string that is none of `"pantry"`,
`"fridge"`, `"freezer"`, no rule can supply a day-count, so for every item
name and every anchor date the advisor returns the generic low-confidence
default `(purchased_date + 7, "low", None)` — which coincides with the
pantry behavior only when the pantry scan itself finds no usable entry. -/
theorem C1_invalid_storage_default (name storage : List Nat) (p t : Nat)
    (h1 : storage ≠ pyStr "pantry") (h2 : storage ≠ pyStr "fridge")
    (h3 : storage ≠ pyStr "freezer") :
    suggest_expiration_date name storage (some p) t = (some (p + 7), "low", none) := by
  apply suggest_fallback
  unfold firstHit
  rw [List.find?_eq_none]
  intro cr _
  simp [ruleHit, matchedDaysUpdate_invalid storage cr.2 h1 h2 h3]

/-- Witness for C1 (amended) at item `"bread"`, storage `"attic"`. -/
theorem C1_invalid_storage_default_witness :
    suggest_expiration_date (pyStr "bread") (pyStr "attic") (some 0) 0 =
      (some 7, "low", none) :=
  C1_invalid_storage_default (pyStr "bread") (pyStr "attic") 0 0
    (by decide) (by decide) (by decide)

/-- C2: the suggested date is populated in both branches; confidence is
`"high"` iff some rule has a keyword occurring in the lowercased name and a
present entry for the storage type, else `"low"`; the category is populated
exactly in the high-confidence case; `"medium"` is never produced. -/
theorem C2_output_guarantee (name storage : List Nat) (p t : Nat) :
    (suggest_expiration_date name storage (some p) t).1.isSome = true ∧
    ((suggest_expiration_date name storage (some p) t).2.1 = "high" ↔
      ∃ cr ∈ EXPIRATION_RULES, (∃ kw ∈ cr.2.keywords, kw <:+: pyLower name) ∧
        (matchedDaysUpdate storage cr.2 none).isSome = true) ∧
    ((suggest_expiration_date name storage (some p) t).2.1 = "high" ∨
      (suggest_expiration_date name storage (some p) t).2.1 = "low") ∧
    ((suggest_expiration_date name storage (some p) t).2.2.isSome = true ↔
      (suggest_expiration_date name storage (some p) t).2.1 = "high") ∧
    (suggest_expiration_date name storage (some p) t).2.1 ≠ "medium" := by
  have hiff : ∀ cr : String × Rule, ruleHit (pyLower name) storage cr = true ↔
      (∃ kw ∈ cr.2.keywords, kw <:+: pyLower name) ∧
        (matchedDaysUpdate storage cr.2 none).isSome = true := by
    intro cr
    simp [ruleHit, keywordHit, List.any_eq_true, subIn]
  cases hfh : firstHit (pyLower name) storage with
  | some cr =>
    obtain ⟨c, r⟩ := cr
    obtain ⟨d, _, heq⟩ := suggest_found name storage p t c r hfh
    rw [heq]
    refine ⟨rfl, ?_, Or.inl rfl, by simp, by simp⟩
    simp only [true_iff]
    exact ⟨(c, r), List.mem_of_find?_eq_some hfh, (hiff (c, r)).mp (List.find?_some hfh)⟩
  | none =>
    have heq := suggest_fallback name storage p t hfh
    rw [heq]
    refine ⟨rfl, ?_, Or.inr rfl, by simp, by simp⟩
    constructor
    · intro hcontra
      exact absurd hcontra (by simp)
    · rintro ⟨cr, hmem, hwin⟩
      have := (List.find?_eq_none.mp hfh) cr hmem
      exact absurd ((hiff cr).mpr hwin) this

/-- C3: an item name containing no keyword of any rule (the empty name
included) yields the generic default `(purchased_date + 7, "low", None)`
for every storage type and anchor date. -/
theorem C3_no_keyword_default (name storage : List Nat) (p t : Nat)
    (h : ∀ cr ∈ EXPIRATION_RULES, ∀ kw ∈ cr.2.keywords, ¬ kw <:+: pyLower name) :
    suggest_expiration_date name storage (some p) t = (some (p + 7), "low", none) := by
  apply suggest_fallback
  unfold firstHit
  rw [List.find?_eq_none]
  intro cr hmem
  have hkwf : keywordHit (pyLower name) cr.2 = false := by
    rw [← Bool.not_eq_true, keywordHit, List.any_eq_true]
    rintro ⟨kw, hkw, hsub⟩
    exact h cr hmem kw hkw (by simpa [subIn] using hsub)
  simp [ruleHit, hkwf]

/-- Witness for C3 at the empty item name. -/
theorem C3_no_keyword_default_witness :
    suggest_expiration_date (pyStr "") (pyStr "pantry") (some 0) 0 =
      (some 7, "low", none) :=
  C3_no_keyword_default (pyStr "") (pyStr "pantry") 0 0 (by decide)

/-- C4: a rule that matches by keyword but whose entry for the storage type
is absent does not stop the scan — the outer loop proceeds to the remaining
categories with `matched_days` still unset; in particular `"milk"` with
storage `"pantry"` (dairy's pantry entry is absent) falls through to the
low-confidence default and never reports category `"dairy"`. -/
theorem C4_absent_entry_continues :
    (∀ (nameL storage : List Nat) (mc : Option String) (c : String) (r : Rule)
        (rest : List (String × Rule)),
      keywordHit nameL r = true → matchedDaysUpdate storage r none = none →
      scanRules nameL storage ((c, r) :: rest) (mc, none) =
        scanRules nameL storage rest (some c, none)) ∧
    (∀ p t : Nat,
      suggest_expiration_date (pyStr "milk") (pyStr "pantry") (some p) t =
        (some (p + 7), "low", none)) := by
  constructor
  · intro nameL storage mc c r rest hk hd
    simp only [scanRules]
    rw [scanKeywords_characterization]
    have hk2 : r.keywords.any (fun kw => subIn kw nameL) = true := by
      simpa [keywordHit] using hk
    simp [hk2, hd]
  · intro p t
    apply suggest_fallback
    decide

/-- Witness for C4: the dairy rule matches `"milk"` by keyword but has no
pantry entry, and the scan continues past it; the full call returns the
7-day low-confidence default. -/
theorem C4_absent_entry_continues_witness :
    scanRules (pyStr "milk") (pyStr "pantry")
        [("dairy",
          { keywords := [pyStr "milk", pyStr "cream", pyStr "yogurt", pyStr "cheese",
                         pyStr "butter", pyStr "sour cream", pyStr "cottage cheese"],
            pantry := none, fridge := some 7, freezer := some 90 })] (none, none) =
      scanRules (pyStr "milk") (pyStr "pantry") [] (some "dairy", none) ∧
    suggest_expiration_date (pyStr "milk") (pyStr "pantry") (some 0) 0 =
      (some 7, "low", none) :=
  ⟨C4_absent_entry_continues.1 (pyStr "milk") (pyStr "pantry") none "dairy"
      { keywords := [pyStr "milk", pyStr "cream", pyStr "yogurt", pyStr "cheese",
                     pyStr "butter", pyStr "sour cream", pyStr "cottage cheese"],
        pantry := none, fridge := some 7, freezer := some 90 } []
      (by decide) (by decide),
   C4_absent_entry_continues.2 0 0⟩

/-- C5: when several categories match by keyword, the winner is the first
rule in table order that matches a keyword and has a present entry for the
storage type, and the scan stops there; for `"banana bread"` the category
is `"produce_long"` (which precedes `"bread"` in the table) under every
recognized storage type. -/
theorem C5_first_match_wins :
    (∀ (name storage : List Nat) (p t : Nat) (c : String) (r : Rule),
      firstHit (pyLower name) storage = some (c, r) →
      ∃ d, matchedDaysUpdate storage r none = some d ∧
        suggest_expiration_date name storage (some p) t = (some (p + d), "high", some c)) ∧
    (∀ p t : Nat,
      (suggest_expiration_date (pyStr "banana bread") (pyStr "pantry") (some p) t).2.2 =
          some "produce_long" ∧
      (suggest_expiration_date (pyStr "banana bread") (pyStr "fridge") (some p) t).2.2 =
          some "produce_long" ∧
      (suggest_expiration_date (pyStr "banana bread") (pyStr "freezer") (some p) t).2.2 =
          some "produce_long") := by
  constructor
  · exact fun name storage p t c r h => suggest_found name storage p t c r h
  · intro p t
    refine ⟨?_, ?_, ?_⟩
    · obtain ⟨d, hd, heq⟩ := suggest_found (pyStr "banana bread") (pyStr "pantry") p t
        "produce_long"
        { keywords := [pyStr "potato", pyStr "onion", pyStr "garlic", pyStr "apple",
                       pyStr "orange", pyStr "banana"],
          pantry := some 30, fridge := some 14, freezer := some 90 } (by decide)
      rw [heq]
    · obtain ⟨d, hd, heq⟩ := suggest_found (pyStr "banana bread") (pyStr "fridge") p t
        "produce_long"
        { keywords := [pyStr "potato", pyStr "onion", pyStr "garlic", pyStr "apple",
                       pyStr "orange", pyStr "banana"],
          pantry := some 30, fridge := some 14, freezer := some 90 } (by decide)
      rw [heq]
    · obtain ⟨d, hd, heq⟩ := suggest_found (pyStr "banana bread") (pyStr "freezer") p t
        "produce_long"
        { keywords := [pyStr "potato", pyStr "onion", pyStr "garlic", pyStr "apple",
                       pyStr "orange", pyStr "banana"],
          pantry := some 30, fridge := some 14, freezer := some 90 } (by decide)
      rw [heq]

/-- Witness for C5 at `"banana bread"`, storage `"pantry"`. -/
theorem C5_first_match_wins_witness :
    suggest_expiration_date (pyStr "banana bread") (pyStr "pantry") (some 0) 0 =
      (some 30, "high", some "produce_long") := by
  obtain ⟨d, hd, heq⟩ := C5_first_match_wins.1 (pyStr "banana bread") (pyStr "pantry")
    0 0 "produce_long"
    { keywords := [pyStr "potato", pyStr "onion", pyStr "garlic", pyStr "apple",
                   pyStr "orange", pyStr "banana"],
      pantry := some 30, fridge := some 14, freezer := some 90 } (by decide)
  have h2 : (some (0 + d), "high", (some "produce_long" : Option String)) =
      ((some 30, "high", some "produce_long") : Option Nat × String × Option String) := by
    rw [← heq]; decide
  rw [heq, h2]

/-- The current date plays no role once a `purchased_date` is supplied. -/
theorem suggest_today_irrelevant (name storage : List Nat) (p t : Nat) :
    suggest_expiration_date name storage (some p) t =
      suggest_expiration_date name storage (some p) 0 := rfl

/-- C6: the suggested date is anchored to the supplied `purchased_date`:
whenever the scan finds a day-count `d`, the result date is
`purchased_date + d`; for `"milk"` in the fridge purchased 2024-01-01 the
result is 2024-01-08 (dairy, 7 days, high confidence) for every value of
the current date. -/
theorem C6_anchored_to_purchased_date :
    (∀ (name storage : List Nat) (p t : Nat) (c : String) (r : Rule) (d : Nat),
      firstHit (pyLower name) storage = some (c, r) →
      matchedDaysUpdate storage r none = some d →
      (suggest_expiration_date name storage (some p) t).1 = some (p + d)) ∧
    (∀ t : Nat,
      suggest_expiration_date (pyStr "milk") (pyStr "fridge")
          (some (PyDate.toOrdinal ⟨2024, 1, 1⟩)) t =
        (some (PyDate.toOrdinal ⟨2024, 1, 8⟩), "high", some "dairy")) ∧
    PyDate.toOrdinal ⟨2024, 1, 8⟩ = PyDate.toOrdinal ⟨2024, 1, 1⟩ + 7 := by
  refine ⟨?_, ?_, by decide⟩
  · intro name storage p t c r d hfh hd
    obtain ⟨d2, hd2, heq⟩ := suggest_found name storage p t c r hfh
    have hdd : d = d2 := by
      rw [hd] at hd2
      exact Option.some.inj hd2
    rw [heq, hdd]
  · intro t
    rw [suggest_today_irrelevant]
    decide

/-- Witness for C6 at `"milk"`, fridge, anchor 0. -/
theorem C6_anchored_to_purchased_date_witness :
    (suggest_expiration_date (pyStr "milk") (pyStr "fridge") (some 0) 0).1 = some (0 + 7) :=
  C6_anchored_to_purchased_date.1 (pyStr "milk") (pyStr "fridge") 0 0 "dairy"
    { keywords := [pyStr "milk", pyStr "cream", pyStr "yogurt", pyStr "cheese",
                   pyStr "butter", pyStr "sour cream", pyStr "cottage cheese"],
      pantry := none, fridge := some 7, freezer := some 90 } 7
    (by decide) (by decide)

/-- The calendar model agrees with CPython: `date.max` (9999-12-31) has
ordinal `_MAXORDINAL`. -/
theorem MAXORDINAL_eq_date_max : MAXORDINAL = PyDate.toOrdinal ⟨9999, 12, 31⟩ := by
  decide

/-- A day-count delivered by the storage lookup at a table rule lies between
2 and 365. -/
theorem matchedDaysUpdate_bounds (storage : List Nat) (c : String) (r : Rule) (d : Nat)
    (hmem : (c, r) ∈ EXPIRATION_RULES)
    (hd : matchedDaysUpdate storage r none = some d) :
    2 ≤ d ∧ d ≤ 365 := by
  have htab : ∀ cr ∈ EXPIRATION_RULES,
      dayOk cr.2.pantry = true ∧ dayOk cr.2.fridge = true ∧ dayOk cr.2.freezer = true := by
    decide
  obtain ⟨hpok, hfok, hzok⟩ := htab (c, r) hmem
  unfold matchedDaysUpdate at hd
  split_ifs at hd
  · rw [hd] at hzok
    simpa [dayOk] using hzok
  · rw [hd] at hfok
    simpa [dayOk] using hfok
  · rw [hd] at hpok
    simpa [dayOk] using hpok

/-- An unspecified `purchased_date` anchors the checked call at the current
date, as for the unchecked one. -/
theorem suggest_checked_none_anchor (name storage : List Nat) (t : Nat) :
    suggest_expiration_date_checked name storage none t =
      suggest_expiration_date_checked name storage (some t) t := rfl

/-- C7: the claim states the advisor never raises for any supplied
purchase date. It does raise: anchored at `date.max` (9999-12-31), even the
fallback `today + timedelta(days=7)` passes the end of the calendar, where
Python's date addition raises `OverflowError`; the checked model returns
the error. -/
theorem C7_counterexample :
    suggest_expiration_date_checked (pyStr "milk") (pyStr "pantry")
      (some (PyDate.toOrdinal ⟨9999, 12, 31⟩)) 0 = none := by
  decide

/-- C7 (amended): the advisor raises no error as long as the resulting date
fits the calendar: for every item name and storage string (malformed ones
degrade to defaults), and every anchor date at least 365 days before
`date.max`, the checked call returns a populated result with confidence
`"high"` or `"low"`, equal to the unchecked computation. Past `date.max`
the underlying date addition raises `OverflowError`. -/
theorem C7_total_within_calendar (name storage : List Nat) (pd : Option Nat) (t : Nat)
    (h : (match pd with | some p => p | none => t) + 365 ≤ MAXORDINAL) :
    ∃ (d : Nat) (conf : String) (cat : Option String),
      suggest_expiration_date_checked name storage pd t = some (some d, conf, cat) ∧
      (conf = "high" ∨ conf = "low") ∧
      suggest_expiration_date name storage pd t = (some d, conf, cat) := by
  have key : ∀ p : Nat, p + 365 ≤ MAXORDINAL →
      ∃ (d : Nat) (conf : String) (cat : Option String),
        suggest_expiration_date_checked name storage (some p) t = some (some d, conf, cat) ∧
        (conf = "high" ∨ conf = "low") ∧
        suggest_expiration_date name storage (some p) t = (some d, conf, cat) := by
    intro p hp
    cases hfh : firstHit (pyLower name) storage with
    | some cr =>
      obtain ⟨c, r⟩ := cr
      obtain ⟨d, hd, heq⟩ := suggest_found name storage p t c r hfh
      have hb := matchedDaysUpdate_bounds storage c r d (List.mem_of_find?_eq_some hfh) hd
      have hadd : pyDateAdd p d = some (p + d) := by
        unfold pyDateAdd
        rw [if_pos ⟨by omega, by omega⟩]
      refine ⟨p + d, "high", some c, ?_, Or.inl rfl, heq⟩
      simp only [suggest_expiration_date_checked]
      rw [scanRules_found (pyLower name) storage EXPIRATION_RULES none c r hfh, hd]
      simp [hadd]
    | none =>
      have h2 := scanRules_notfound (pyLower name) storage EXPIRATION_RULES none hfh
      have hadd : pyDateAdd p 7 = some (p + 7) := by
        unfold pyDateAdd
        rw [if_pos ⟨by omega, by omega⟩]
      refine ⟨p + 7, "low", none, ?_, Or.inr rfl, suggest_fallback name storage p t hfh⟩
      simp only [suggest_expiration_date_checked]
      rw [h2]
      simp [hadd]
  cases pd with
  | some p => exact key p h
  | none =>
    rw [suggest_checked_none_anchor, suggest_none_anchor]
    exact key t h

/-- Witness for C7 (amended) at `"milk"`, fridge, anchor 100. -/
theorem C7_total_within_calendar_witness :
    suggest_expiration_date_checked (pyStr "milk") (pyStr "fridge") (some 100) 0 =
      some (some 107, "high", some "dairy") := by
  obtain ⟨d, conf, cat, heq, _, heq2⟩ :=
    C7_total_within_calendar (pyStr "milk") (pyStr "fridge") (some 100) 0 (by decide)
  have h3 : ((some d, conf, cat) : Option Nat × String × Option String) =
      (some 107, "high", some "dairy") := by
    rw [← heq2]
    decide
  rw [heq, h3]

/-- C8: matching is case-insensitive — lowercasing the item name first does
not change the result — and a rule is a keyword candidate exactly when some
keyword of it occurs as a contiguous substring of the lowercased name. -/
theorem C8_case_insensitive :
    (∀ (name storage : List Nat) (pd : Option Nat) (t : Nat),
      suggest_expiration_date (pyLower name) storage pd t =
        suggest_expiration_date name storage pd t) ∧
    (∀ (name : List Nat) (r : Rule),
      keywordHit (pyLower name) r = true ↔ ∃ kw ∈ r.keywords, kw <:+: pyLower name) := by
  constructor
  · intro name storage pd t
    simp only [suggest_expiration_date, pyLower_idem]
  · intro name r
    simp [keywordHit, List.any_eq_true, subIn]

/-- C9: a call of the advisor is a pure read of the static rule table: the
state (the table) is returned unchanged, a repeated call on the unchanged
state yields the identical output, and at the module-level table the call
computes exactly `suggest_expiration_date`. -/
theorem C9_pure_deterministic (s : AdvisorState) (name storage : List Nat)
    (pd : Option Nat) (t : Nat) :
    (suggestCall s name storage pd t).1 = s ∧
    (suggestCall (suggestCall s name storage pd t).1 name storage pd t).2 =
      (suggestCall s name storage pd t).2 ∧
    (suggestCall ⟨EXPIRATION_RULES⟩ name storage pd t).2 =
      suggest_expiration_date name storage pd t :=
  ⟨rfl, rfl, rfl⟩

/-- C10: every present day-count of the table lies between 2 and 365, the
fallback day-count is 7, and hence the suggested date is always between 2
and 365 days after the anchor date — in particular strictly later than it. -/
theorem C10_suggested_date_bounds (name storage : List Nat) (p t : Nat) :
    (∀ cr ∈ EXPIRATION_RULES,
      dayOk cr.2.pantry = true ∧ dayOk cr.2.fridge = true ∧ dayOk cr.2.freezer = true) ∧
    (firstHit (pyLower name) storage = none →
      (suggest_expiration_date name storage (some p) t).1 = some (p + 7)) ∧
    ∃ k, 2 ≤ k ∧ k ≤ 365 ∧
      (suggest_expiration_date name storage (some p) t).1 = some (p + k) ∧ p < p + k := by
  have htab : ∀ cr ∈ EXPIRATION_RULES,
      dayOk cr.2.pantry = true ∧ dayOk cr.2.fridge = true ∧ dayOk cr.2.freezer = true := by
    decide
  refine ⟨htab, ?_, ?_⟩
  · intro hfh
    rw [suggest_fallback name storage p t hfh]
  · cases hfh : firstHit (pyLower name) storage with
    | none =>
      refine ⟨7, by omega, by omega, ?_, by omega⟩
      rw [suggest_fallback name storage p t hfh]
    | some cr =>
      obtain ⟨c, r⟩ := cr
      obtain ⟨d, hd, heq⟩ := suggest_found name storage p t c r hfh
      have hmem : (c, r) ∈ EXPIRATION_RULES := List.mem_of_find?_eq_some hfh
      obtain ⟨hpok, hfok, hzok⟩ := htab (c, r) hmem
      have hrange : 2 ≤ d ∧ d ≤ 365 := by
        unfold matchedDaysUpdate at hd
        split_ifs at hd
        · rw [hd] at hzok
          simpa [dayOk] using hzok
        · rw [hd] at hfok
          simpa [dayOk] using hfok
        · rw [hd] at hpok
          simpa [dayOk] using hpok
      refine ⟨d, hrange.1, hrange.2, ?_, by omega⟩
      rw [heq]

/-- Witness for C10: the fallback branch at an unmatched item. -/
theorem C10_suggested_date_bounds_witness :
    (suggest_expiration_date (pyStr "") (pyStr "pantry") (some 0) 0).1 = some (0 + 7) :=
  (C10_suggested_date_bounds (pyStr "") (pyStr "pantry") 0 0).2.1 (by decide)
